import Mathlib

/-!
Verification development for the HAP auto-installer script
(`auto-installer.py`).  The definitions below are a shallow embedding of
the authentication-and-reconciliation engine: the persisted
config store, the OAuth callback handler, and the certificate / device /
profile reconciliation flows.  Each definition is translated directly
from the corresponding Python function; remote and filesystem effects
are made explicit (environments supply the responses, traces record the
calls that were issued).
-/

namespace HapInstaller

/-! ### Constants from the script header -/

def DEFAULT_STOREPASS : String := "xiaobai123"
def DEFAULT_KEYALIAS : String := "xiaobai"
def CONFIG_DIR : String := "~/.autoPublisher/config"
def ECO_CONFIG_FILE : String := CONFIG_DIR ++ "/eco_config.json"

/-! ### ConfigStore (`read_eco_config` / `get_config_value` / `update_config`)

The config document is a flat string-to-string mapping (a JSON object).
We model it as an association list whose lookup returns the first
binding, and whose key assignment updates an existing binding in place
or appends a new one — the semantics of a Python `dict`. -/

abbrev Doc := List (String × String)

/-- First binding of a key in the document, `none` when absent. -/
def lookupKey : Doc → String → Option String
  | [], _ => none
  | (k', v) :: rest, k => if k' = k then some v else lookupKey rest k

/-- Assignment `config[k] = v` on a Python dict: replace in place or append. -/
def setKey : Doc → String → String → Doc
  | [], k, v => [(k, v)]
  | (k', v') :: rest, k, v =>
      if k' = k then (k', v) :: rest else (k', v') :: setKey rest k v

/-- Lookup `get_config_value`: `config.get(key, "")`. -/
def get_config_value (doc : Doc) (key : String) : String :=
  (lookupKey doc key).getD ""

/-- Merge update `update_config(**kwargs)`: read the document, assign each given key,
write the document back.  The persisted write is modeled separately (see
`write_eco_config_ops`); here we model the resulting document. -/
def update_config (doc : Doc) (updates : Doc) : Doc :=
  updates.foldl (fun d kv => setKey d kv.1 kv.2) doc

/-- Initialization `initialize_eco_config`: when `DEBUG`, the file is first cleared to an
empty document; a missing file is created with the two defaults; an
existing file is probed for `storepass` and (as literally written in the
source) for `"keyAlias"`, and the defaults are written for whichever
probe came back empty.  Note the probe key `"keyAlias"` differs from the
stored key `"keyalias"`. -/
def initialize_eco_config (debugMode fileExists : Bool) (doc : Doc) : Doc :=
  let fe := if debugMode then true else fileExists
  let d0 := if debugMode then ([] : Doc) else doc
  if fe = false then
    [("storepass", DEFAULT_STOREPASS), ("keyalias", DEFAULT_KEYALIAS)]
  else
    let d1 :=
      if get_config_value d0 "storepass" = "" then
        update_config d0 [("storepass", DEFAULT_STOREPASS)]
      else d0
    if get_config_value d1 "keyAlias" = "" then
      update_config d1 [("keyalias", DEFAULT_KEYALIAS)]
    else d1

/-! ### `login_eco` — persisted session after a successful login

After the callback server has terminated, `login_eco` reads the handoff
token file and extracts `accessToken`, `userId` and `nickName` (these are
the only fields it reads).  If the token or the user id is empty the run
aborts (`none`); otherwise the config is merge-updated with
`oauth2_token`, `team_id`, `uid`, `nick_name` — both `team_id` and `uid`
receive `userId`. -/

structure TokenPayload where
  accessToken : String
  userId : String
  nickName : String

def login_eco_update (doc : Doc) (t : TokenPayload) : Option Doc :=
  if t.accessToken = "" ∨ t.userId = "" then none
  else some (update_config doc
    [("oauth2_token", t.accessToken),
     ("team_id", t.userId),
     ("uid", t.userId),
     ("nick_name", t.nickName)])

/-! ### CallbackServer — `OAuthHandler.do_POST`

The handler receives one POST.  A request is described by its path and
by the `tempToken` field parsed from its form-encoded body (`none` when
the field is missing).  The outcome of the two sequential token-exchange
calls made by the handler (`temptoken/check`, then `jwToken/check`) is
an input of the model.  The result records the HTTP status sent to the
browser and whether the handler triggered `server.shutdown`. -/

structure PostRequest where
  path : String
  tempToken : Option String

/-- Outcome of the downstream two-step exchange performed inside the
handler: the first call can fail (`requests` exception), the second call
can fail, its body can fail to decode as JSON, the decoded body can lack
`userInfo`, or everything can succeed.  On success, writing the handoff
token file may itself fail; the source logs that error and continues. -/
inductive ExchangeOutcome
  | tempTokenCheckFailed
  | jwTokenCheckFailed
  | jsonDecodeFailed
  | emptyUserInfo
  | ok (tokenFileWriteOk : Bool)
  deriving DecidableEq

structure HandlerResult where
  status : Nat
  shutdown : Bool
  deriving DecidableEq

/-- Handler `OAuthHandler.do_POST`, branch for branch: unknown paths get 404; a
missing `tempToken` gets 400; each exchange failure gets 400; success
gets 200 and spawns the `server.shutdown` thread.  Only the success path
reaches step 6 (`关闭服务器`). -/
def do_POST (req : PostRequest) (exch : ExchangeOutcome) : HandlerResult :=
  if req.path ≠ "/callback" then ⟨404, false⟩
  else
    match req.tempToken with
    | none => ⟨400, false⟩
    | some _ =>
        match exch with
        | .tempTokenCheckFailed => ⟨400, false⟩
        | .jwTokenCheckFailed => ⟨400, false⟩
        | .jsonDecodeFailed => ⟨400, false⟩
        | .emptyUserInfo => ⟨400, false⟩
        | .ok _ => ⟨200, true⟩

/-! ### Persistence of the config document — `write_eco_config`

`write_eco_config` serializes the document and writes it.  We record the
sequence of filesystem operations the source performs: it opens
`ECO_CONFIG_FILE` itself with mode `"w"` (which truncates), dumps the
JSON into it, and closes it. -/

inductive FsOp
  | openTrunc (path : String)
  | writeAll (path : String) (content : String)
  | closeFile (path : String)
  | rename (src dst : String)
  deriving DecidableEq

/-- The filesystem operations performed by `write_eco_config` when
writing the serialized document `content`. -/
def write_eco_config_ops (content : String) : List FsOp :=
  [FsOp.openTrunc ECO_CONFIG_FILE,
   FsOp.writeAll ECO_CONFIG_FILE content,
   FsOp.closeFile ECO_CONFIG_FILE]

/-- Stated from the words of the spec for comparison ("implementations should
write to a temporary file and rename"): a trace is a temp-file-then-
rename write when some rename installs the final path and no truncating
open or write ever targets the final path directly. -/
def usesTempFileThenRename (t : List FsOp) : Bool :=
  (t.any fun op =>
    match op with
    | .rename _ dst => dst == ECO_CONFIG_FILE
    | _ => false) &&
  (t.all fun op =>
    match op with
    | .openTrunc p => p != ECO_CONFIG_FILE
    | .writeAll p _ => p != ECO_CONFIG_FILE
    | _ => true)

/-- Effect of one filesystem operation on the on-disk content of
`ECO_CONFIG_FILE`: a truncating open empties it, a write replaces it. -/
def applyFsOp (disk : String) : FsOp → String
  | .openTrunc p => if p == ECO_CONFIG_FILE then "" else disk
  | .writeAll p c => if p == ECO_CONFIG_FILE then c else disk
  | _ => disk

def diskAfter (disk : String) (ops : List FsOp) : String :=
  ops.foldl applyFsOp disk

/-- On-disk content of the config file when the process crashes after
the first `k` operations of a `write_eco_config` call (`old` was the
previous content, `content` the new serialized document). -/
def crashDisk (old content : String) (k : Nat) : String :=
  diskAfter old ((write_eco_config_ops content).take k)

/-! ### Remote-call traces

Every remote or tool-level action the reconciliation flows can issue.
`login` stands for a whole `login_eco` cycle, `download` for a
`download_cert`/`download_file` call (the object id or URL being
resolved), `keystoreGen`/`csrGen` for the keytool invocations that are
skipped when the file already exists. -/

inductive Ev
  | listCerts
  | listDevices
  | listTeams
  | login
  | deleteCerts (ids : List String)
  | keystoreGen
  | csrGen
  | createCert (name : String)
  | registerDevice (deviceName udid : String)
  | createProfile (name : String)
  | download (source : String)
  deriving DecidableEq

/-- Remote calls that create a resource (the "creation calls" of the spec). -/
def isCreationCall : Ev → Bool
  | .createCert _ => true
  | .registerDevice _ _ => true
  | .createProfile _ => true
  | _ => false

/-! ### Certificate reconciliation — `create_and_download_debug_cert` -/

/-- One entry of the remote `certList`.  Missing JSON fields surface as
`""`/`0`, mirroring `c.get(...)` falsiness in the source. -/
structure CertInfo where
  id : String
  certObjectId : String
  certName : String
  certType : Nat
  deriving DecidableEq

/-- Application-level result carried by successful JSON bodies
(`ret.code` / `ret.msg`; missing fields default to `0` / `""`). -/
structure RetBody where
  retCode : Int
  retMsg : String
  deriving DecidableEq

/-- Parsed body of a successful `cert/add` response. -/
structure CreateCertBody where
  ret : RetBody
  certObjectId : String
  id : String
  deriving DecidableEq

/-- Environment for one run of `create_and_download_debug_cert`: the
responses the remote side will give, and the relevant local filesystem
facts.  `listResp i` is the `(status, parsed certList)` of the `i`-th
`get_cert_list` call, `none` standing for a non-JSON body.  The response
of `delete_certs` is part of the environment although the source
discards it without looking at it.  `download_cert` internally resolves
a download URL and fetches the file, exiting the process on any failure;
this is collapsed into `downloadOk` / `downloadPath`. -/
structure CertEnv where
  listResp : Nat → Nat × Option (List CertInfo)
  cerFileExists : Bool
  keystoreExists : Bool
  csrExists : Bool
  deleteResp : Nat × Option RetBody
  createResp : Nat × Option CreateCertBody
  downloadOk : Bool
  downloadPath : String → String

inductive CertOutcome
  | fatal (msg : String)
  | done (newCert : Bool) (id : String) (certName : String) (path : String)
  deriving DecidableEq

/-- List `same_ids`: identifiers of every debug certificate in the listing
whose name matches and whose id is truthy
(the list comprehension over `debug_certs` keeping entries whose `certName` matches and whose id is nonempty). -/
def sameNameIds (debugCerts : List CertInfo) (name : String) : List String :=
  (debugCerts.filter fun c => c.certName == name && c.id != "").map (fun c => c.id)

/-- Creation branch of `create_and_download_debug_cert` (reached when no
same-named debug certificate is usable): delete every same-named debug
certificate that has an id, ensure keystore and CSR exist, submit the
CSR, check HTTP status, JSON-ness, `ret.code`, and the returned ids,
then download the fresh certificate. -/
def certCreationFlow (env : CertEnv) (name : String)
    (debugCerts : List CertInfo) (evs : List Ev) : List Ev × CertOutcome :=
  let sameIds := sameNameIds debugCerts name
  let evs := evs ++ (if sameIds.isEmpty then [] else [Ev.deleteCerts sameIds])
  let evs := evs ++ (if env.keystoreExists then [] else [Ev.keystoreGen])
  let evs := evs ++ (if env.csrExists then [] else [Ev.csrGen])
  let evs := evs ++ [Ev.createCert name]
  if env.createResp.1 ≠ 200 then (evs, .fatal "create_cert request failed")
  else
    match env.createResp.2 with
    | none => (evs, .fatal "create_cert returned non-JSON")
    | some b =>
        if b.ret.retCode ≠ 0 then (evs, .fatal b.ret.retMsg)
        else if b.certObjectId = "" ∨ b.id = "" then
          (evs, .fatal "create_cert abnormal response")
        else
          (evs ++ [Ev.download b.certObjectId],
           if env.downloadOk then
             .done true b.id (name ++ ".cer") (env.downloadPath b.certObjectId)
           else .fatal "download failed")

/-- Continuation of `create_and_download_debug_cert` once a certificate
listing has been obtained: filter to debug certificates, look for the
candidate name; the first match is used when it carries both ids — with
a skip when the local `.cer` file exists and the listed id equals the
cached `debug_cert_id`, and a re-download otherwise; in every other case
fall through to the creation branch. -/
def certAfterList (env : CertEnv) (name existingCertId : String)
    (evs : List Ev) (body : Option (List CertInfo)) : List Ev × CertOutcome :=
  match body with
  | none => (evs, .fatal "cert list returned non-JSON")
  | some certList =>
      let debugCerts := certList.filter fun c => c.certType == 1
      match debugCerts.filter fun c => c.certName == name with
      | c0 :: _ =>
          if c0.id ≠ "" ∧ c0.certObjectId ≠ "" then
            if env.cerFileExists ∧ c0.id = existingCertId then
              (evs, .done false c0.id (name ++ ".cer")
                (CONFIG_DIR ++ "/" ++ name ++ ".cer"))
            else
              (evs ++ [Ev.download c0.certObjectId],
               if env.downloadOk then
                 .done false c0.id (name ++ ".cer")
                   (env.downloadPath c0.certObjectId)
               else .fatal "download failed")
          else certCreationFlow env name debugCerts evs
      | [] => certCreationFlow env name debugCerts evs

/-- Flow `create_and_download_debug_cert`: list the certificates; on a 401
run one `login_eco` cycle and list once more, any non-200 on that retry
being fatal; any other non-200 on the first call being fatal; then
continue with the parsed listing. -/
def create_and_download_debug_cert (env : CertEnv)
    (name existingCertId : String) : List Ev × CertOutcome :=
  let r0 := env.listResp 0
  if r0.1 = 401 then
    let evs := [Ev.listCerts, Ev.login, Ev.listCerts]
    let r1 := env.listResp 1
    if r1.1 ≠ 200 then (evs, .fatal "cert list after login failed")
    else certAfterList env name existingCertId evs r1.2
  else if r0.1 ≠ 200 then ([Ev.listCerts], .fatal "get_cert_list failed")
  else certAfterList env name existingCertId [Ev.listCerts] r0.2

/-! ### Profile reconciliation — `create_and_download_debug_profile` -/

/-- One entry of the remote device list. -/
structure DeviceInfo where
  id : String
  udid : String
  deriving DecidableEq

/-- Parsed body of a successful `provision/add` response. -/
structure CreateProfileBody where
  ret : RetBody
  provisionFileUrl : String
  deriving DecidableEq

/-- Environment for one run of `create_and_download_debug_profile`.
`deviceIp` is the already-stripped `DEVICE_IP`; `connectOk` stands for
the `hdc tconn` subprocess succeeding (the source exits on failure);
`udid` is the value `get_udid` returns (`""` modelling its failure).
`deviceListResp i` is the `(status, parsed list)` of the `i`-th
`eco_device_list` call.  The response of `create_device` is part of the
environment although the source discards it without looking at it;
registration is validated only by re-listing.  `certIdInConfig` is
`get_config_value("debug_cert_id")`. -/
structure ProfileEnv where
  p7bFileExists : Bool
  deviceIp : String
  connectOk : Bool
  udid : String
  deviceListResp : Nat → Nat × Option (List DeviceInfo)
  registerResp : Nat × Option RetBody
  certIdInConfig : String
  createProfileResp : Nat × Option CreateProfileBody
  downloadOk : Bool
  downloadPath : String → String

inductive ProfileOutcome
  | fatal (msg : String)
  | done (name : String) (path : String)
  deriving DecidableEq

/-- Replacement of every dot by an underscore in the package name (the
single-character `.replace` call of the source is a character map). -/
def dotsToUnderscores (s : String) : String :=
  String.mk (s.data.map fun ch => if ch = '.' then '_' else ch)

/-- Local file name of the profile: the profile name, an underscore, the
package name with dots replaced by underscores, and the `.p7b` suffix. -/
def profileFileName (profileName packageName : String) : String :=
  profileName ++ "_" ++ dotsToUnderscores packageName ++ ".p7b"

/-- Tail of the profile flow once the registered device record is at
hand: require its id and the cached `debug_cert_id`, submit the profile
request, check HTTP status, JSON-ness, `ret.code` and the returned URL,
then download the profile. -/
def profileWithDevice (env : ProfileEnv) (profileName packageName : String)
    (evs : List Ev) (d : DeviceInfo) : List Ev × ProfileOutcome :=
  if d.id = "" then (evs, .fatal "device id missing")
  else if env.certIdInConfig = "" then (evs, .fatal "debug_cert_id missing")
  else
    let evs := evs ++ [Ev.createProfile profileName]
    if env.createProfileResp.1 ≠ 200 then
      (evs, .fatal "create_profile request failed")
    else
      match env.createProfileResp.2 with
      | none => (evs, .fatal "create_profile returned non-JSON")
      | some b =>
          if b.ret.retCode ≠ 0 then (evs, .fatal b.ret.retMsg)
          else if b.provisionFileUrl = "" then
            (evs, .fatal "provisionFileUrl empty")
          else
            (evs ++ [Ev.download b.provisionFileUrl],
             if env.downloadOk then
               .done (profileFileName profileName packageName)
                 (env.downloadPath b.provisionFileUrl)
             else .fatal "download failed")

/-- Middle of the profile flow once a device listing has been obtained:
find the device by UDID; when absent, register it (discarding the
response) and re-list exactly once (`nextIdx` is the index of that
re-listing call), failing when it still does not appear. -/
def profileAfterDevices (env : ProfileEnv) (profileName packageName : String)
    (evs : List Ev) (nextIdx : Nat) (devices : List DeviceInfo) :
    List Ev × ProfileOutcome :=
  match devices.find? fun d => d.udid == env.udid with
  | some d => profileWithDevice env profileName packageName evs d
  | none =>
      let evs := evs ++
        [Ev.registerDevice ("xiaobai-device-" ++ env.udid.take 10) env.udid,
         Ev.listDevices]
      let r := env.deviceListResp nextIdx
      if r.1 ≠ 200 then (evs, .fatal "device list after register failed")
      else
        match r.2 with
        | none => (evs, .fatal "device list returned non-JSON")
        | some devs2 =>
            match devs2.find? fun d => d.udid == env.udid with
            | none => (evs, .fatal "device not found after register")
            | some d => profileWithDevice env profileName packageName evs d

/-- Flow `create_and_download_debug_profile`: when the local `.p7b` file
exists the flow returns it at once with no remote call; otherwise it
connects the device, obtains its UDID, lists the registered devices —
with one `login_eco` cycle and one retry on a 401, any non-200 after
that being fatal — and continues with the listing. -/
def create_and_download_debug_profile (env : ProfileEnv)
    (profileName packageName : String) : List Ev × ProfileOutcome :=
  let fname := profileFileName profileName packageName
  if env.p7bFileExists then
    ([], .done fname (CONFIG_DIR ++ "/" ++ fname))
  else if env.deviceIp = "" then ([], .fatal "DEVICE_IP not given")
  else if env.connectOk = false then ([], .fatal "connect device failed")
  else if env.udid = "" then ([], .fatal "get udid failed")
  else
    let r0 := env.deviceListResp 0
    if r0.1 = 401 then
      let evs := [Ev.listDevices, Ev.login, Ev.listDevices]
      let r1 := env.deviceListResp 1
      if r1.1 ≠ 200 then (evs, .fatal "device list after login failed")
      else
        match r1.2 with
        | none => (evs, .fatal "device list returned non-JSON")
        | some devs => profileAfterDevices env profileName packageName evs 2 devs
    else if r0.1 ≠ 200 then ([Ev.listDevices], .fatal "device list failed")
    else
      match r0.2 with
      | none => ([Ev.listDevices], .fatal "device list returned non-JSON")
      | some devs =>
          profileAfterDevices env profileName packageName [Ev.listDevices] 1 devs

/-! ### Team listing — `check_or_login_huawei_eco` -/

structure TeamInfo where
  name : String
  deriving DecidableEq

/-- Parsed body of a successful `user-team-list` response. -/
structure TeamsBody where
  teams : List TeamInfo
  nickName : String
  deriving DecidableEq

structure TeamEnv where
  listResp : Nat → Nat × Option TeamsBody

/-- Continuation of `check_or_login_huawei_eco` once a team listing has
been obtained (`i` is the index of the next listing call): an empty
`teams` triggers one further `login_eco` cycle and one re-listing, after
which an empty listing is fatal; with a nonempty listing the account
name is `teams[0].name or nickName`. -/
def teamAfterList (env : TeamEnv) (evs : List Ev) (i : Nat)
    (body : Option TeamsBody) : List Ev × Option String :=
  match body with
  | none => (evs, none)
  | some b =>
      match b.teams with
      | t :: _ => (evs, some (if t.name ≠ "" then t.name else b.nickName))
      | [] =>
          let evs := evs ++ [Ev.login, Ev.listTeams]
          let r := env.listResp i
          if r.1 ≠ 200 then (evs, none)
          else
            match r.2 with
            | none => (evs, none)
            | some b2 =>
                match b2.teams with
                | [] => (evs, none)
                | t :: _ =>
                    (evs, some (if t.name ≠ "" then t.name else b2.nickName))

/-- Flow `check_or_login_huawei_eco`: list the teams of the user; on a 401 run one
`login_eco` cycle and list once more, any non-200 on that retry being
fatal (`none`); any other non-200 on the first call being fatal; then
continue with the parsed listing. -/
def check_or_login_huawei_eco (env : TeamEnv) : List Ev × Option String :=
  let r0 := env.listResp 0
  if r0.1 = 401 then
    let evs := [Ev.listTeams, Ev.login, Ev.listTeams]
    let r1 := env.listResp 1
    if r1.1 ≠ 200 then (evs, none)
    else teamAfterList env evs 2 r1.2
  else if r0.1 ≠ 200 then ([Ev.listTeams], none)
  else teamAfterList env [Ev.listTeams] 1 r0.2

/-- Download events in a trace (`download_cert` / `download_file`). -/
def isDownloadEv : Ev → Bool
  | .download _ => true
  | _ => false

/-! ### Concrete instances used to witness the theorems -/

def doc9 : Doc := [("storepass", "s"), ("keyalias", "custom")]

def doc10 : Doc :=
  [("oauth2_token", "tok"), ("team_id", "u1"), ("uid", "u1"),
   ("nick_name", "nick")]

def certsC1 : List CertInfo := [⟨"cid1", "obj1", "xiaobai-debug", 1⟩]

def certEnvC1 : CertEnv where
  listResp := fun _ => (200, some certsC1)
  cerFileExists := true
  keystoreExists := true
  csrExists := true
  deleteResp := (200, none)
  createResp := (200, none)
  downloadOk := true
  downloadPath := fun s => "dl-" ++ s

def profEnvC1 : ProfileEnv where
  p7bFileExists := true
  deviceIp := "192.168.1.9:5555"
  connectOk := true
  udid := "UDID1"
  deviceListResp := fun _ => (200, some [])
  registerResp := (200, none)
  certIdInConfig := "cid1"
  createProfileResp := (200, none)
  downloadOk := true
  downloadPath := fun s => "dl-" ++ s

def certEnvC3 : CertEnv where
  listResp := fun _ => (401, none)
  cerFileExists := false
  keystoreExists := false
  csrExists := false
  deleteResp := (200, none)
  createResp := (200, none)
  downloadOk := true
  downloadPath := fun s => "dl-" ++ s

def profEnvC3 : ProfileEnv where
  p7bFileExists := false
  deviceIp := "192.168.1.9:5555"
  connectOk := true
  udid := "UDID1"
  deviceListResp := fun _ => (401, none)
  registerResp := (200, none)
  certIdInConfig := "cid1"
  createProfileResp := (200, none)
  downloadOk := true
  downloadPath := fun s => "dl-" ++ s

def teamEnvC3 : TeamEnv where
  listResp := fun _ => (401, none)

/-- Remote listing with two debug certificates both named `"x"` but with
different identifiers; the first lacks `certObjectId`, so reuse is
impossible and a creation is triggered. -/
def certsDup : List CertInfo :=
  [⟨"a", "", "x", 1⟩, ⟨"b", "objb", "x", 1⟩]

def certEnvC4 : CertEnv where
  listResp := fun _ => (200, some certsDup)
  cerFileExists := false
  keystoreExists := true
  csrExists := true
  deleteResp := (200, none)
  createResp := (200, some ⟨⟨0, ""⟩, "no1", "ni1"⟩)
  downloadOk := true
  downloadPath := fun s => "dl-" ++ s

/-- Same listing, but the `cert/delete` call is answered with HTTP 200
and an application-level rejection (`ret.code = 999`); the source never
looks at that response. -/
def certEnvC5 : CertEnv where
  listResp := fun _ => (200, some certsDup)
  cerFileExists := false
  keystoreExists := true
  csrExists := true
  deleteResp := (200, some ⟨999, "denied"⟩)
  createResp := (200, some ⟨⟨0, ""⟩, "no1", "ni1"⟩)
  downloadOk := true
  downloadPath := fun s => "dl-" ++ s

def certEnvC5b : CertEnv where
  listResp := fun _ => (200, some [])
  cerFileExists := false
  keystoreExists := true
  csrExists := true
  deleteResp := (200, none)
  createResp := (200, some ⟨⟨77, "quota exceeded"⟩, "no1", "ni1"⟩)
  downloadOk := true
  downloadPath := fun s => "dl-" ++ s

def profEnvC5 : ProfileEnv where
  p7bFileExists := false
  deviceIp := "192.168.1.9:5555"
  connectOk := true
  udid := "UDID1"
  deviceListResp := fun _ => (200, some [⟨"dev1", "UDID1"⟩])
  registerResp := (200, none)
  certIdInConfig := "cid1"
  createProfileResp := (200, some ⟨⟨5, "profile rejected"⟩, "url1"⟩)
  downloadOk := true
  downloadPath := fun s => "dl-" ++ s

def certEnvC8 : CertEnv where
  listResp := fun _ => (200, some certsC1)
  cerFileExists := false
  keystoreExists := true
  csrExists := true
  deleteResp := (200, none)
  createResp := (200, none)
  downloadOk := true
  downloadPath := fun s => "dl-" ++ s

def profEnvC8 : ProfileEnv where
  p7bFileExists := false
  deviceIp := "192.168.1.9:5555"
  connectOk := true
  udid := "UDID1"
  deviceListResp := fun _ => (200, some [⟨"dev1", "UDID1"⟩])
  registerResp := (200, none)
  certIdInConfig := "cid1"
  createProfileResp := (200, some ⟨⟨0, ""⟩, "url1"⟩)
  downloadOk := true
  downloadPath := fun s => "dl-" ++ s

/-! ### Lemmas about the config document -/

theorem lookupKey_setKey_self (d : Doc) (k v : String) :
    lookupKey (setKey d k v) k = some v := by
  induction d with
  | nil => simp [setKey, lookupKey]
  | cons hd tl ih =>
      obtain ⟨k', v'⟩ := hd
      by_cases h : k' = k <;> simp [setKey, lookupKey, h, ih]

theorem lookupKey_setKey_other (d : Doc) (k v k₁ : String) (h : k₁ ≠ k) :
    lookupKey (setKey d k v) k₁ = lookupKey d k₁ := by
  induction d with
  | nil => simp [setKey, lookupKey, Ne.symm h]
  | cons hd tl ih =>
      obtain ⟨k', v'⟩ := hd
      by_cases hk : k' = k
      · subst hk
        simp [setKey, lookupKey, Ne.symm h]
      · simp [setKey, lookupKey, hk, ih]

theorem lookupKey_update_config_not_mem :
    ∀ (us : Doc) (d : Doc) (k : String), k ∉ us.map Prod.fst →
      lookupKey (update_config d us) k = lookupKey d k
  | [], _, _, _ => by simp [update_config]
  | (k', v') :: tl, d, k, h => by
      simp only [List.map_cons, List.mem_cons] at h
      push_neg at h
      simp only [update_config, List.foldl_cons]
      have hrest := lookupKey_update_config_not_mem tl (setKey d k' v') k h.2
      unfold update_config at hrest
      rw [hrest, lookupKey_setKey_other d k' v' k h.1]

theorem lookupKey_update_config_mem :
    ∀ (us : Doc) (d : Doc) (k v : String),
      (us.map Prod.fst).Nodup → (k, v) ∈ us →
      lookupKey (update_config d us) k = some v
  | [], _, _, _, _, hmem => by simp at hmem
  | (k', v') :: tl, d, k, v, hnd, hmem => by
      simp only [List.map_cons, List.nodup_cons] at hnd
      simp only [update_config, List.foldl_cons]
      rcases List.mem_cons.mp hmem with heq | htl
      · injection heq with hk hv
        subst hk
        subst hv
        have hrest := lookupKey_update_config_not_mem tl (setKey d k v) k hnd.1
        unfold update_config at hrest
        rw [hrest, lookupKey_setKey_self]
      · have hrest := lookupKey_update_config_mem tl (setKey d k' v') k v hnd.2 htl
        unfold update_config at hrest
        exact hrest


/-! ### Claim theorems -/

/-- Claim C6: config writes have merge semantics — after `update_config`
the document contains every updated key with its new value and retains
every key not updated with its old binding; in particular setting
`a = 1` and then `b = 2` yields a document containing both. -/
theorem c6_config_merge_write (doc us : Doc)
    (hnd : (us.map Prod.fst).Nodup) :
    (∀ kv ∈ us, get_config_value (update_config doc us) kv.1 = kv.2) ∧
    (∀ k, k ∉ us.map Prod.fst →
      lookupKey (update_config doc us) k = lookupKey doc k) ∧
    (∀ d : Doc,
      get_config_value
        (update_config (update_config d [("a", "1")]) [("b", "2")]) "a" = "1" ∧
      get_config_value
        (update_config (update_config d [("a", "1")]) [("b", "2")]) "b" = "2") := by
  refine ⟨?_, ?_, ?_⟩
  · rintro ⟨k, v⟩ hkv
    simp only [get_config_value]
    rw [lookupKey_update_config_mem us doc k v hnd hkv]
    rfl
  · intro k hk
    exact lookupKey_update_config_not_mem us doc k hk
  · intro d
    constructor
    · simp only [get_config_value, update_config, List.foldl_cons, List.foldl_nil]
      rw [lookupKey_setKey_other _ _ _ _ (by decide), lookupKey_setKey_self]
      rfl
    · simp only [get_config_value, update_config, List.foldl_cons, List.foldl_nil]
      rw [lookupKey_setKey_self]
      rfl

/-- Witness for C6 at a concrete document and update. -/
theorem c6_witness :
    (([("b", "2")] : Doc).map Prod.fst).Nodup ∧
    (get_config_value
       (update_config (update_config [] [("a", "1")]) [("b", "2")]) "a" = "1" ∧
     get_config_value
       (update_config (update_config [] [("a", "1")]) [("b", "2")]) "b" = "2") :=
  ⟨by decide, (c6_config_merge_write [] [("b", "2")] (by decide)).2.2 []⟩

/-- Claim C9: on a run where the config document already exists,
initialization probes the key `"keyAlias"` (capital A) while the stored
key is `"keyalias"`, so the probe reads an empty value and the built-in
default is unconditionally rewritten over any custom `keyalias` value. -/
theorem c9_keyalias_probe_mismatch (doc : Doc)
    (h : lookupKey doc "keyAlias" = none) :
    get_config_value doc "keyAlias" = "" ∧
    get_config_value (initialize_eco_config false true doc) "keyalias" =
      DEFAULT_KEYALIAS := by
  have hd1 : ∀ d1 : Doc, lookupKey d1 "keyAlias" = none →
      get_config_value
        (if get_config_value d1 "keyAlias" = "" then
          update_config d1 [("keyalias", DEFAULT_KEYALIAS)]
        else d1) "keyalias" = DEFAULT_KEYALIAS := by
    intro d1 h1
    rw [if_pos (by simp [get_config_value, h1])]
    simp only [get_config_value]
    rw [lookupKey_update_config_mem [("keyalias", DEFAULT_KEYALIAS)] d1
      "keyalias" DEFAULT_KEYALIAS (by decide) (by simp)]
    rfl
  refine ⟨by simp [get_config_value, h], ?_⟩
  simp only [initialize_eco_config, Bool.false_eq_true, if_false, reduceIte]
  by_cases hs : get_config_value doc "storepass" = ""
  · rw [if_pos hs]
    exact hd1 _ (by rw [lookupKey_update_config_not_mem _ _ _ (by decide)]; exact h)
  · rw [if_neg hs]
    exact hd1 doc h

/-- Witness for C9: a document with a custom `keyalias` value still gets
the default written back. -/
theorem c9_witness :
    lookupKey doc9 "keyAlias" = none ∧
    get_config_value doc9 "keyalias" = "custom" ∧
    (get_config_value doc9 "keyAlias" = "" ∧
     get_config_value (initialize_eco_config false true doc9) "keyalias" =
       DEFAULT_KEYALIAS) :=
  ⟨by decide, by decide, c9_keyalias_probe_mismatch doc9 (by decide)⟩

/-- Claim C10: after every successful login cycle the persisted team
identifier equals the persisted user identifier — both `team_id` and
`uid` are set to the `userId` field of the payload. -/
theorem c10_team_id_equals_uid (doc : Doc) (t : TokenPayload) (d : Doc)
    (h : login_eco_update doc t = some d) :
    get_config_value d "team_id" = t.userId ∧
    get_config_value d "uid" = t.userId := by
  unfold login_eco_update at h
  split at h
  · exact absurd h (by simp)
  · injection h with h1
    subst h1
    constructor
    · simp only [get_config_value]
      rw [lookupKey_update_config_mem _ doc "team_id" t.userId
        (by show (["oauth2_token", "team_id", "uid", "nick_name"] : List String).Nodup
            decide)
        (by simp)]
      rfl
    · simp only [get_config_value]
      rw [lookupKey_update_config_mem _ doc "uid" t.userId
        (by show (["oauth2_token", "team_id", "uid", "nick_name"] : List String).Nodup
            decide)
        (by simp)]
      rfl

/-- Witness for C10 at a concrete payload. -/
theorem c10_witness :
    login_eco_update [] ⟨"tok", "u1", "nick"⟩ = some doc10 ∧
    (get_config_value doc10 "team_id" = "u1" ∧
     get_config_value doc10 "uid" = "u1") :=
  ⟨by decide, c10_team_id_equals_uid [] ⟨"tok", "u1", "nick"⟩ doc10 (by decide)⟩

/-- Claim C2 as stated is false: a well-formed `POST` to the callback
path whose token exchange fails is answered 400 and the handler does
NOT trigger `server.shutdown` — the server keeps serving. -/
theorem c2_counterexample_keeps_serving_after_failed_exchange :
    do_POST ⟨"/callback", some "tok"⟩ ExchangeOutcome.tempTokenCheckFailed =
      ⟨400, false⟩ ∧
    do_POST ⟨"/callback", none⟩ (ExchangeOutcome.ok true) = ⟨400, false⟩ := by
  constructor <;> rfl

/-- Claim C2 (amended): the callback server stops serving only on the
success exit path — the handler triggers `server.shutdown` exactly when
the request hits the callback path, carries a `tempToken`, and the
two-step exchange succeeds, which is also exactly when it answers 200;
on the missing-field and exchange-failure paths it answers 400 and
continues serving. -/
theorem c2_amended_shutdown_only_on_success (req : PostRequest)
    (exch : ExchangeOutcome) :
    ((do_POST req exch).shutdown = true ↔
      (req.path = "/callback" ∧ req.tempToken.isSome = true ∧
       ∃ w, exch = ExchangeOutcome.ok w)) ∧
    ((do_POST req exch).status = 200 ↔
      (req.path = "/callback" ∧ req.tempToken.isSome = true ∧
       ∃ w, exch = ExchangeOutcome.ok w)) := by
  unfold do_POST
  by_cases hp : req.path = "/callback" <;>
    cases htk : req.tempToken <;> cases exch <;> simp_all

/-- Claim C7 as stated is false: the filesystem trace of
`write_eco_config` is not of the temp-file-then-rename shape, and the
on-disk state after a crash one operation into the write (after the
truncating open) is the empty string — neither the old nor the new
document. -/
theorem c7_counterexample_direct_truncating_write :
    usesTempFileThenRename (write_eco_config_ops "new-doc") = false ∧
    crashDisk "old-doc" "new-doc" 1 ≠ "old-doc" ∧
    crashDisk "old-doc" "new-doc" 1 ≠ "new-doc" := by decide

/-- Claim C7 (amended): config persistence is not crash-atomic —
`write_eco_config` opens the final config file itself with a truncating
write and no rename, so a crash between the truncating open and the
completed write leaves an empty file, which differs from both the old
and the new document whenever both are nonempty. -/
theorem c7_amended_not_crash_atomic (old c : String)
    (hold : old ≠ "") (hc : c ≠ "") :
    usesTempFileThenRename (write_eco_config_ops c) = false ∧
    crashDisk old c 1 = "" ∧
    crashDisk old c 1 ≠ old ∧ crashDisk old c 1 ≠ c := by
  refine ⟨rfl, rfl, ?_, ?_⟩
  · show ("" : String) ≠ old
    exact fun habs => hold habs.symm
  · show ("" : String) ≠ c
    exact fun habs => hc habs.symm

/-- Witness for the amended C7 at concrete documents. -/
theorem c7_witness :
    (("old-doc" : String) ≠ "" ∧ ("new-doc" : String) ≠ "") ∧
    (usesTempFileThenRename (write_eco_config_ops "new-doc") = false ∧
     crashDisk "old-doc" "new-doc" 1 = "" ∧
     crashDisk "old-doc" "new-doc" 1 ≠ "old-doc" ∧
     crashDisk "old-doc" "new-doc" 1 ≠ "new-doc") :=
  ⟨by decide, c7_amended_not_crash_atomic "old-doc" "new-doc" (by decide) (by decide)⟩

/-- Claim C1: a second reconciliation run with unchanged identity and an
intact local cache issues zero remote creation calls — the certificate
flow returns the cached record when the local `.cer` file exists and the
listed remote id equals the cached `debug_cert_id`, and the profile flow
returns the cached record when the local `.p7b` file exists, in both
cases without any create call. -/
theorem c1_second_run_zero_creation_calls
    (env : CertEnv) (name existingId : String)
    (certs : List CertInfo) (c0 : CertInfo) (rest : List CertInfo)
    (hresp : env.listResp 0 = (200, some certs))
    (hsame : ((certs.filter fun c => c.certType == 1).filter
        fun c => c.certName == name) = c0 :: rest)
    (hid : c0.id = existingId) (hidne : c0.id ≠ "")
    (hobj : c0.certObjectId ≠ "") (hfile : env.cerFileExists = true)
    (penv : ProfileEnv) (profileName packageName : String)
    (hp7b : penv.p7bFileExists = true) :
    (create_and_download_debug_cert env name existingId =
      ([Ev.listCerts], CertOutcome.done false existingId (name ++ ".cer")
        (CONFIG_DIR ++ "/" ++ name ++ ".cer")) ∧
     (create_and_download_debug_cert env name existingId).1.all
        (fun e => !(isCreationCall e)) = true) ∧
    (create_and_download_debug_profile penv profileName packageName =
      ([], ProfileOutcome.done (profileFileName profileName packageName)
        (CONFIG_DIR ++ "/" ++ profileFileName profileName packageName)) ∧
     (create_and_download_debug_profile penv profileName packageName).1.all
        (fun e => !(isCreationCall e)) = true) := by
  have hcert : create_and_download_debug_cert env name existingId =
      ([Ev.listCerts], CertOutcome.done false existingId (name ++ ".cer")
        (CONFIG_DIR ++ "/" ++ name ++ ".cer")) := by
    unfold create_and_download_debug_cert
    rw [hresp]
    show certAfterList env name existingId [Ev.listCerts] (some certs) = _
    simp only [certAfterList, hsame]
    rw [if_pos ⟨hidne, hobj⟩, if_pos ⟨hfile, hid⟩, hid]
  have hprof : create_and_download_debug_profile penv profileName packageName =
      ([], ProfileOutcome.done (profileFileName profileName packageName)
        (CONFIG_DIR ++ "/" ++ profileFileName profileName packageName)) := by
    simp [create_and_download_debug_profile, hp7b]
  exact ⟨⟨hcert, by rw [hcert]; rfl⟩, ⟨hprof, by rw [hprof]; rfl⟩⟩

/-- Witness for C1: concrete second-run environments. -/
theorem c1_witness :
    (create_and_download_debug_cert certEnvC1 "xiaobai-debug" "cid1" =
      ([Ev.listCerts], CertOutcome.done false "cid1" ("xiaobai-debug" ++ ".cer")
        (CONFIG_DIR ++ "/" ++ "xiaobai-debug" ++ ".cer")) ∧
     (create_and_download_debug_cert certEnvC1 "xiaobai-debug" "cid1").1.all
        (fun e => !(isCreationCall e)) = true) ∧
    (create_and_download_debug_profile profEnvC1 "xiaobai-debug" "com.example.app" =
      ([], ProfileOutcome.done (profileFileName "xiaobai-debug" "com.example.app")
        (CONFIG_DIR ++ "/" ++ profileFileName "xiaobai-debug" "com.example.app")) ∧
     (create_and_download_debug_profile profEnvC1 "xiaobai-debug" "com.example.app").1.all
        (fun e => !(isCreationCall e)) = true) :=
  c1_second_run_zero_creation_calls certEnvC1 "xiaobai-debug" "cid1" certsC1
    ⟨"cid1", "obj1", "xiaobai-debug", 1⟩ [] rfl (by decide) rfl (by decide)
    (by decide) rfl profEnvC1 "xiaobai-debug" "com.example.app" rfl

/-- Claim C3: for each remote listing step (certificate list, device
list, team list) a 401 on the first call triggers exactly one login
cycle and exactly one retried call, and a non-200 on the retry is fatal:
the whole trace is list-login-list and the step fails, with no further
retry or loop. -/
theorem c3_single_relogin_then_fatal
    (cenv : CertEnv) (name exId : String)
    (hc0 : (cenv.listResp 0).1 = 401) (hc1 : (cenv.listResp 1).1 ≠ 200)
    (penv : ProfileEnv) (pn pk : String)
    (hp7b : penv.p7bFileExists = false) (hip : penv.deviceIp ≠ "")
    (hconn : penv.connectOk = true) (hudid : penv.udid ≠ "")
    (hd0 : (penv.deviceListResp 0).1 = 401)
    (hd1 : (penv.deviceListResp 1).1 ≠ 200)
    (tenv : TeamEnv) (ht0 : (tenv.listResp 0).1 = 401)
    (ht1 : (tenv.listResp 1).1 ≠ 200) :
    create_and_download_debug_cert cenv name exId =
      ([Ev.listCerts, Ev.login, Ev.listCerts],
       CertOutcome.fatal "cert list after login failed") ∧
    create_and_download_debug_profile penv pn pk =
      ([Ev.listDevices, Ev.login, Ev.listDevices],
       ProfileOutcome.fatal "device list after login failed") ∧
    check_or_login_huawei_eco tenv =
      ([Ev.listTeams, Ev.login, Ev.listTeams], none) := by
  refine ⟨?_, ?_, ?_⟩
  · simp [create_and_download_debug_cert, hc0, hc1]
  · simp [create_and_download_debug_profile, hp7b, hip, hconn, hudid, hd0, hd1]
  · simp [check_or_login_huawei_eco, ht0, ht1]

/-- Witness for C3: environments answering 401 to every listing call. -/
theorem c3_witness :
    create_and_download_debug_cert certEnvC3 "xiaobai-debug" "" =
      ([Ev.listCerts, Ev.login, Ev.listCerts],
       CertOutcome.fatal "cert list after login failed") ∧
    create_and_download_debug_profile profEnvC3 "xiaobai-debug" "com.example.app" =
      ([Ev.listDevices, Ev.login, Ev.listDevices],
       ProfileOutcome.fatal "device list after login failed") ∧
    check_or_login_huawei_eco teamEnvC3 =
      ([Ev.listTeams, Ev.login, Ev.listTeams], none) :=
  c3_single_relogin_then_fatal certEnvC3 "xiaobai-debug" "" rfl (by decide)
    profEnvC3 "xiaobai-debug" "com.example.app" rfl (by decide) rfl (by decide)
    rfl (by decide) teamEnvC3 rfl (by decide)

/-! ### Helper lemmas about the reconciliation traces -/

/-- Shape of the creation-branch trace: after the incoming events come
the optional deletion of the same-named ids, the optional keystore and
CSR generations, and the single `cert/add` submission; whatever follows
(`tail`) is at most the download of the fresh certificate. -/
theorem certCreationFlow_trace (env : CertEnv) (name : String)
    (debugCerts : List CertInfo) (evs : List Ev) :
    ∃ tail, (certCreationFlow env name debugCerts evs).1 =
      evs ++ ((if (sameNameIds debugCerts name).isEmpty then []
          else [Ev.deleteCerts (sameNameIds debugCerts name)]) ++
        ((if env.keystoreExists then [] else [Ev.keystoreGen]) ++
          ((if env.csrExists then [] else [Ev.csrGen]) ++
            ([Ev.createCert name] ++ tail)))) := by
  simp only [certCreationFlow]
  by_cases h1 : env.createResp.1 ≠ 200
  · simp only [if_pos h1]
    exact ⟨[], by simp⟩
  · simp only [if_neg h1]
    rcases hb : env.createResp.2 with _ | b
    · simp only [hb]
      exact ⟨[], by simp⟩
    · simp only [hb]
      by_cases h2 : b.ret.retCode ≠ 0
      · simp only [if_pos h2]
        exact ⟨[], by simp⟩
      · simp only [if_neg h2]
        by_cases h3 : b.certObjectId = "" ∨ b.id = ""
        · simp only [if_pos h3]
          exact ⟨[], by simp⟩
        · simp only [if_neg h3]
          exact ⟨[Ev.download b.certObjectId], by simp⟩

/-- Embedding a two-element subsequence into an event trace that carries
the first element and the second element in this order. -/
theorem sublist_pair_embed (x y : Ev) (l0 l1 l2 l3 : List Ev) :
    List.Sublist [x, y] (l0 ++ ([x] ++ (l1 ++ (l2 ++ ([y] ++ l3))))) := by
  have hy : List.Sublist [y] ([y] ++ l3) := List.sublist_append_left [y] l3
  have hy2 : List.Sublist [y] (l2 ++ ([y] ++ l3)) :=
    hy.trans (List.sublist_append_right l2 ([y] ++ l3))
  have hy3 : List.Sublist [y] (l1 ++ (l2 ++ ([y] ++ l3))) :=
    hy2.trans (List.sublist_append_right l1 _)
  have hxy : List.Sublist [x, y] ([x] ++ (l1 ++ (l2 ++ ([y] ++ l3)))) :=
    List.Sublist.cons₂ x hy3
  exact hxy.trans (List.sublist_append_right l0 _)

/-- A successful profile outcome can only come from the creation tail:
its trace carries the `provision/add` submission and a download. -/
theorem profileWithDevice_done_events (env : ProfileEnv) (pn pk : String)
    (evs : List Ev) (d : DeviceInfo) (nm p : String)
    (hdone : (profileWithDevice env pn pk evs d).2 = ProfileOutcome.done nm p) :
    Ev.createProfile pn ∈ (profileWithDevice env pn pk evs d).1 ∧
    (profileWithDevice env pn pk evs d).1.any isDownloadEv = true := by
  simp only [profileWithDevice] at hdone ⊢
  by_cases h1 : d.id = ""
  · simp only [if_pos h1] at hdone
    exact absurd hdone (by simp)
  · simp only [if_neg h1] at hdone ⊢
    by_cases h2 : env.certIdInConfig = ""
    · simp only [if_pos h2] at hdone
      exact absurd hdone (by simp)
    · simp only [if_neg h2] at hdone ⊢
      by_cases h3 : env.createProfileResp.1 ≠ 200
      · simp only [if_pos h3] at hdone
        exact absurd hdone (by simp)
      · simp only [if_neg h3] at hdone ⊢
        rcases hb : env.createProfileResp.2 with _ | b
        · simp only [hb] at hdone
          exact absurd hdone (by simp)
        · simp only [hb] at hdone ⊢
          by_cases h4 : b.ret.retCode ≠ 0
          · simp only [if_pos h4] at hdone
            exact absurd hdone (by simp)
          · simp only [if_neg h4] at hdone ⊢
            by_cases h5 : b.provisionFileUrl = ""
            · simp only [if_pos h5] at hdone
              exact absurd hdone (by simp)
            · simp only [if_neg h5] at hdone ⊢
              refine ⟨by simp, by simp [isDownloadEv]⟩

/-- Lifting `profileWithDevice_done_events` over the device lookup and
the optional register-then-relist step. -/
theorem profileAfterDevices_done_events (env : ProfileEnv) (pn pk : String)
    (evs : List Ev) (nextIdx : Nat) (devices : List DeviceInfo) (nm p : String)
    (hdone : (profileAfterDevices env pn pk evs nextIdx devices).2 =
      ProfileOutcome.done nm p) :
    Ev.createProfile pn ∈ (profileAfterDevices env pn pk evs nextIdx devices).1 ∧
    (profileAfterDevices env pn pk evs nextIdx devices).1.any isDownloadEv
      = true := by
  simp only [profileAfterDevices] at hdone ⊢
  rcases hf : devices.find? (fun d => d.udid == env.udid) with _ | d
  · simp only [hf] at hdone ⊢
    by_cases h1 : (env.deviceListResp nextIdx).1 ≠ 200
    · simp only [if_pos h1] at hdone
      exact absurd hdone (by simp)
    · simp only [if_neg h1] at hdone ⊢
      rcases hb : (env.deviceListResp nextIdx).2 with _ | devs2
      · simp only [hb] at hdone
        exact absurd hdone (by simp)
      · simp only [hb] at hdone ⊢
        rcases hf2 : devs2.find? (fun d => d.udid == env.udid) with _ | d2
        · simp only [hf2] at hdone
          exact absurd hdone (by simp)
        · simp only [hf2] at hdone ⊢
          exact profileWithDevice_done_events env pn pk _ d2 nm p hdone
  · simp only [hf] at hdone ⊢
    exact profileWithDevice_done_events env pn pk evs d nm p hdone

/-- Claim C4: duplicate-name resolution — when the listing has
same-named debug certificates, the first match is authoritative for
reuse (any successful non-creating outcome carries its id), and when a
creation is triggered, the deletion of all same-named identifiers is
submitted before the create request. -/
theorem c4_duplicate_name_policy
    (env : CertEnv) (name exId : String)
    (certs : List CertInfo) (c0 : CertInfo) (rest : List CertInfo)
    (hresp : env.listResp 0 = (200, some certs))
    (hsame : ((certs.filter fun c => c.certType == 1).filter
        fun c => c.certName == name) = c0 :: rest) :
    (∀ b i nm p, c0.id ≠ "" → c0.certObjectId ≠ "" →
       (create_and_download_debug_cert env name exId).2 =
         CertOutcome.done b i nm p → b = false ∧ i = c0.id) ∧
    (¬(c0.id ≠ "" ∧ c0.certObjectId ≠ "") →
      sameNameIds (certs.filter fun c => c.certType == 1) name ≠ [] →
      List.Sublist
        [Ev.deleteCerts (sameNameIds (certs.filter fun c => c.certType == 1) name),
         Ev.createCert name]
        (create_and_download_debug_cert env name exId).1) := by
  have hred : create_and_download_debug_cert env name exId =
      certAfterList env name exId [Ev.listCerts] (some certs) := by
    unfold create_and_download_debug_cert
    rw [hresp]
    rfl
  constructor
  · intro b i nm p hcid hcobj hdone
    rw [hred] at hdone
    simp only [certAfterList, hsame] at hdone
    rw [if_pos ⟨hcid, hcobj⟩] at hdone
    by_cases hfe : env.cerFileExists = true ∧ c0.id = exId
    · rw [if_pos hfe] at hdone
      simp only [CertOutcome.done.injEq] at hdone
      exact ⟨hdone.1.symm, hdone.2.1.symm⟩
    · rw [if_neg hfe] at hdone
      by_cases hdl : env.downloadOk = true
      · rw [if_pos hdl] at hdone
        simp only [CertOutcome.done.injEq] at hdone
        exact ⟨hdone.1.symm, hdone.2.1.symm⟩
      · rw [if_neg hdl] at hdone
        exact absurd hdone (by simp)
  · intro hnot hids
    rw [hred]
    simp only [certAfterList, hsame]
    rw [if_neg hnot]
    obtain ⟨tail, htr⟩ := certCreationFlow_trace env name
      (certs.filter fun c => c.certType == 1) [Ev.listCerts]
    rw [htr, if_neg (by simpa using hids)]
    exact sublist_pair_embed _ _ _ _ _ _

/-- Witness for C4: two debug certificates both named `"x"`, ids `"a"`
and `"b"`; the triggered creation deletes both before submitting. -/
theorem c4_witness :
    List.Sublist [Ev.deleteCerts ["a", "b"], Ev.createCert "x"]
      (create_and_download_debug_cert certEnvC4 "x" "").1 :=
  (c4_duplicate_name_policy certEnvC4 "x" "" certsDup ⟨"a", "", "x", 1⟩
      [⟨"b", "objb", "x", 1⟩] rfl (by decide)).2 (by decide) (by decide)

/-- Claim C5 as stated is false for certificate deletion: a `cert/delete`
answered HTTP 200 with application-level `ret.code = 999` does not stop
the run — its response is discarded and the flow proceeds to a
successful creation, never surfacing the server message. -/
theorem c5_counterexample_delete_retcode_ignored :
    certEnvC5.deleteResp = (200, some ⟨999, "denied"⟩) ∧
    create_and_download_debug_cert certEnvC5 "x" "" =
      ([Ev.listCerts, Ev.deleteCerts ["a", "b"], Ev.createCert "x",
        Ev.download "no1"],
       CertOutcome.done true "ni1" "x.cer" "dl-no1") := by
  constructor
  · rfl
  · decide

/-- Claim C5 (amended): for the two creating calls whose responses the
source does inspect — certificate creation and profile creation — an
HTTP-200 response carrying a nonzero `ret.code` is fatal, surfaces the
server-supplied `ret.msg`, and is submitted exactly once (no retry);
the responses of certificate deletion and device registration are never
inspected. -/
theorem c5_amended_retcode_fatal_for_creates
    (cenv : CertEnv) (name : String) (dcs : List CertInfo) (evs : List Ev)
    (b : CreateCertBody) (hc : cenv.createResp = (200, some b))
    (hcode : b.ret.retCode ≠ 0)
    (penv : ProfileEnv) (pn pk : String) (pevs : List Ev) (d : DeviceInfo)
    (pb : CreateProfileBody) (hdid : d.id ≠ "")
    (hcfg : penv.certIdInConfig ≠ "")
    (hp : penv.createProfileResp = (200, some pb))
    (hpcode : pb.ret.retCode ≠ 0) :
    ((certCreationFlow cenv name dcs evs).2 = CertOutcome.fatal b.ret.retMsg ∧
     (certCreationFlow cenv name dcs evs).1.count (Ev.createCert name) =
       evs.count (Ev.createCert name) + 1) ∧
    ((profileWithDevice penv pn pk pevs d).2 =
       ProfileOutcome.fatal pb.ret.retMsg ∧
     (profileWithDevice penv pn pk pevs d).1.count (Ev.createProfile pn) =
       pevs.count (Ev.createProfile pn) + 1) := by
  constructor
  · constructor
    · simp [certCreationFlow, hc, hcode]
    · by_cases h1 : (sameNameIds dcs name).isEmpty = true <;>
        by_cases h2 : cenv.keystoreExists = true <;>
          by_cases h3 : cenv.csrExists = true <;>
            simp [certCreationFlow, hc, hcode, h1, h2, h3,
              List.count_append, List.count_cons]
  · constructor
    · simp [profileWithDevice, hdid, hcfg, hp, hpcode]
    · simp [profileWithDevice, hdid, hcfg, hp, hpcode,
        List.count_append, List.count_cons]

/-- Witness for the amended C5: a rejected certificate creation and a
rejected profile creation at concrete environments. -/
theorem c5_witness :
    ((certCreationFlow certEnvC5b "x" [] []).2 =
       CertOutcome.fatal "quota exceeded" ∧
     (certCreationFlow certEnvC5b "x" [] []).1.count (Ev.createCert "x") =
       0 + 1) ∧
    ((profileWithDevice profEnvC5 "xiaobai-debug" "com.example.app" []
        ⟨"dev1", "UDID1"⟩).2 = ProfileOutcome.fatal "profile rejected" ∧
     (profileWithDevice profEnvC5 "xiaobai-debug" "com.example.app" []
        ⟨"dev1", "UDID1"⟩).1.count (Ev.createProfile "xiaobai-debug") =
       0 + 1) :=
  c5_amended_retcode_fatal_for_creates certEnvC5b "x" [] []
    ⟨⟨77, "quota exceeded"⟩, "no1", "ni1"⟩ rfl (by decide)
    profEnvC5 "xiaobai-debug" "com.example.app" [] ⟨"dev1", "UDID1"⟩
    ⟨⟨5, "profile rejected"⟩, "url1"⟩ (by decide) (by decide) rfl (by decide)

/-- Claim C8: a record whose path is cached but whose local file is
absent is treated as absent — with the `.cer` file missing the
certificate flow re-downloads the remote match instead of returning the
cached path, and with the `.p7b` file missing every successful profile
outcome comes from the creation path (its trace carries the
`provision/add` submission and a download), never from the shortcut. -/
theorem c8_stale_cache_forces_refetch
    (env : CertEnv) (name exId : String)
    (certs : List CertInfo) (c0 : CertInfo) (rest : List CertInfo)
    (hresp : env.listResp 0 = (200, some certs))
    (hsame : ((certs.filter fun c => c.certType == 1).filter
        fun c => c.certName == name) = c0 :: rest)
    (hid : c0.id ≠ "") (hobj : c0.certObjectId ≠ "")
    (hfile : env.cerFileExists = false) (hdl : env.downloadOk = true)
    (penv : ProfileEnv) (pn pk nm p : String)
    (hp7b : penv.p7bFileExists = false)
    (hdone : (create_and_download_debug_profile penv pn pk).2 =
      ProfileOutcome.done nm p) :
    create_and_download_debug_cert env name exId =
      ([Ev.listCerts, Ev.download c0.certObjectId],
       CertOutcome.done false c0.id (name ++ ".cer")
         (env.downloadPath c0.certObjectId)) ∧
    (Ev.createProfile pn ∈ (create_and_download_debug_profile penv pn pk).1 ∧
     (create_and_download_debug_profile penv pn pk).1.any isDownloadEv
       = true) := by
  constructor
  · unfold create_and_download_debug_cert
    rw [hresp]
    show certAfterList env name exId [Ev.listCerts] (some certs) = _
    simp only [certAfterList, hsame]
    rw [if_pos ⟨hid, hobj⟩, if_neg (by simp [hfile]), if_pos hdl]
    rfl
  · simp only [create_and_download_debug_profile, hp7b] at hdone ⊢
    by_cases h1 : penv.deviceIp = ""
    · simp only [if_pos h1] at hdone
      exact absurd hdone (by simp)
    · simp only [if_neg h1] at hdone ⊢
      by_cases h2 : penv.connectOk = false
      · simp only [if_pos h2] at hdone
        exact absurd hdone (by simp)
      · simp only [if_neg h2] at hdone ⊢
        by_cases h3 : penv.udid = ""
        · simp only [if_pos h3] at hdone
          exact absurd hdone (by simp)
        · simp only [if_neg h3] at hdone ⊢
          by_cases h4 : (penv.deviceListResp 0).1 = 401
          · simp only [if_pos h4] at hdone ⊢
            by_cases h5 : (penv.deviceListResp 1).1 ≠ 200
            · simp only [if_pos h5] at hdone
              exact absurd hdone (by simp)
            · simp only [if_neg h5] at hdone ⊢
              rcases hb : (penv.deviceListResp 1).2 with _ | devs
              · simp only [hb] at hdone
                exact absurd hdone (by simp)
              · simp only [hb] at hdone ⊢
                exact profileAfterDevices_done_events penv pn pk _ 2 devs nm p hdone
          · simp only [if_neg h4] at hdone ⊢
            by_cases h5 : (penv.deviceListResp 0).1 ≠ 200
            · simp only [if_pos h5] at hdone
              exact absurd hdone (by simp)
            · simp only [if_neg h5] at hdone ⊢
              rcases hb : (penv.deviceListResp 0).2 with _ | devs
              · simp only [hb] at hdone
                exact absurd hdone (by simp)
              · simp only [hb] at hdone ⊢
                exact profileAfterDevices_done_events penv pn pk _ 1 devs nm p hdone

/-- Witness for C8: the `.cer` and `.p7b` files are absent; the
certificate flow downloads and the successful profile run creates. -/
theorem c8_witness :
    create_and_download_debug_cert certEnvC8 "xiaobai-debug" "cid1" =
      ([Ev.listCerts, Ev.download "obj1"],
       CertOutcome.done false "cid1" ("xiaobai-debug" ++ ".cer")
         (certEnvC8.downloadPath "obj1")) ∧
    (Ev.createProfile "xiaobai-debug" ∈
       (create_and_download_debug_profile profEnvC8 "xiaobai-debug"
         "com.example.app").1 ∧
     (create_and_download_debug_profile profEnvC8 "xiaobai-debug"
         "com.example.app").1.any isDownloadEv = true) :=
  c8_stale_cache_forces_refetch certEnvC8 "xiaobai-debug" "cid1" certsC1
    ⟨"cid1", "obj1", "xiaobai-debug", 1⟩ [] rfl (by decide) (by decide)
    (by decide) rfl rfl profEnvC8 "xiaobai-debug" "com.example.app"
    (profileFileName "xiaobai-debug" "com.example.app") "dl-url1" rfl (by decide)

end HapInstaller
